import Mathlib

/-!
Verification development for the ElmapiCMS JavaScript SDK (dist/index.js).

This file gives a shallow embedding of the SDK's core: the error taxonomy
(`ElmapiError` and the per-class constructors), the error classifiers
(`createApiError`, `createNetworkError`), the request executor
(`ApiClient.request`), the multipart upload path (`ApiClient.uploadAsset`),
the resource-aware NotFound remapping (`ApiClient.getCollection`),
configuration handling (`ApiClient.ofConfig`, `validateConfiguration`,
`createClient`) and `ApiClient.deleteEntry`.

JavaScript values flowing through the pipeline are modelled by `JsonVal`
(which includes `undefined` and `null`), JS truthiness by `JsonVal.truthy`,
the JS operator `a || b` by `jsOr`, and the JS property access `x.f` (which
throws a TypeError when `x` is null or undefined) by `jsGet` in the `Except`
monad.  The external JSON decode facility (`JSON.parse`) is passed to the
classifier as a function parameter `parse`; `jsonAtomParse` instantiates it
on the atom inputs used by concrete witnesses.  Methods mutate none of the
client's fields; accordingly the request builders also return the client as
their state component, unchanged.
-/

/-- A JavaScript value as it occurs in this pipeline: `undefined`, `null`,
booleans, numbers, strings, arrays and plain objects (a list of properties). -/
inductive JsonVal where
  | undefined
  | null
  | bool (b : Bool)
  | num (n : Int)
  | str (s : String)
  | arr (elems : List JsonVal)
  | obj (props : List (String × JsonVal))

/-- JavaScript truthiness of a value. -/
def JsonVal.truthy : JsonVal → Bool
  | .undefined => false
  | .null => false
  | .bool b => b
  | .num n => n != 0
  | .str s => s != ""
  | .arr _ => true
  | .obj _ => true

/-- Whether a value is the JavaScript `undefined`. -/
def JsonVal.isUndefined : JsonVal → Bool
  | .undefined => true
  | _ => false

/-- JavaScript `a || b`. -/
def jsOr (a b : JsonVal) : JsonVal := if a.truthy then a else b

/-- A possibly-absent JavaScript string (such as `error.message`) as a value. -/
def jsOfStrOpt : Option String → JsonVal
  | some s => .str s
  | none => .undefined

/-- How the `ElmapiError` base constructor stores an optional field:
the field is set exactly when the argument is not `undefined`. -/
def optOfVal (v : JsonVal) : Option JsonVal :=
  if v.isUndefined then none else some v

/-- The TypeError raised by a JavaScript property access on null/undefined. -/
def jsTypeError : String := "TypeError: cannot read properties of null or undefined"

/-- JavaScript property access `x.f`: throws a TypeError on null/undefined,
yields the property on objects (or `undefined` when absent), and `undefined`
on the remaining primitives. -/
def jsGet : JsonVal → String → Except String JsonVal
  | .null, _ => .error jsTypeError
  | .undefined, _ => .error jsTypeError
  | .obj props, f => .ok ((props.lookup f).getD .undefined)
  | _, _ => .ok .undefined

/-- JavaScript `s || d` for an optional string (`config.accessToken || ''`). -/
def jsOrStr (x : Option String) (d : String) : String :=
  match x with
  | some s => if s = "" then d else s
  | none => d

/-- JavaScript `n || d` for an optional number (`config.timeout || 30000`). -/
def jsOrNat (x : Option Nat) (d : Nat) : Nat :=
  match x with
  | some n => if n = 0 then d else n
  | none => d

/-- JavaScript `n || d` for a number already present
(`requestInfo.timeout || 30000`). -/
def jsOrNat0 (n d : Nat) : Nat := if n = 0 then d else n

/-- The per-call diagnostic context attached to errors: the `requestInfo`
object built by `ApiClient.request` / `ApiClient.uploadAsset`. -/
structure RequestContext where
  method : String
  url : String
  params : List (String × JsonVal)
  data : JsonVal
  timeout : Nat

/-- An SDK error object.  `name` records the constructor's class name
(`this.name = this.constructor.name` in the source); the remaining fields are
those stored by the `ElmapiError` base constructor. -/
structure ElmapiError where
  name : String
  message : JsonVal
  statusCode : Option Nat
  code : Option JsonVal
  details : Option JsonVal
  requestInfo : Option RequestContext

/-- The `ElmapiError` base constructor body, parameterised by the class name:
optional fields are stored only when not `undefined`. -/
def mkError (name : String) (message : JsonVal) (statusCode : Option Nat)
    (code : JsonVal) (details : JsonVal) (requestInfo : Option RequestContext) :
    ElmapiError :=
  { name := name, message := message, statusCode := statusCode,
    code := optOfVal code, details := optOfVal details, requestInfo := requestInfo }

/-- `new ElmapiError(message, statusCode, code, details, requestInfo)`. -/
def mkElmapiError (message : JsonVal) (statusCode : Option Nat)
    (code details : JsonVal) (ri : Option RequestContext) : ElmapiError :=
  mkError "ElmapiError" message statusCode code details ri

/-- `new AuthenticationError(message, requestInfo)` (401). -/
def mkAuthenticationError (message : JsonVal) (ri : Option RequestContext) : ElmapiError :=
  mkError "AuthenticationError"
    (if message.isUndefined then .str "Authentication failed. Please check your API token." else message)
    (some 401) (.str "AUTHENTICATION_ERROR") .undefined ri

/-- `new AuthorizationError(message, requestInfo)` (403). -/
def mkAuthorizationError (message : JsonVal) (ri : Option RequestContext) : ElmapiError :=
  mkError "AuthorizationError"
    (if message.isUndefined then .str "You do not have permission to perform this action." else message)
    (some 403) (.str "AUTHORIZATION_ERROR") .undefined ri

/-- `new NotFoundError(resource, requestInfo)` (404): the message is
the resource label followed by " not found.". -/
def mkNotFoundError (resource : String) (ri : Option RequestContext) : ElmapiError :=
  mkError "NotFoundError" (.str (resource ++ " not found.")) (some 404)
    (.str "NOT_FOUND") .undefined ri

/-- `new ValidationError(message, details, requestInfo)` (422). -/
def mkValidationError (message : JsonVal) (details : JsonVal)
    (ri : Option RequestContext) : ElmapiError :=
  mkError "ValidationError" message (some 422) (.str "VALIDATION_ERROR") details ri

/-- `new RateLimitError(message, requestInfo)` (429). -/
def mkRateLimitError (message : JsonVal) (ri : Option RequestContext) : ElmapiError :=
  mkError "RateLimitError"
    (if message.isUndefined then .str "Rate limit exceeded. Please try again later." else message)
    (some 429) (.str "RATE_LIMIT_ERROR") .undefined ri

/-- `new ServerError(message, requestInfo)`: note the constructor hardcodes
status code 500 whatever the response status was. -/
def mkServerError (message : JsonVal) (ri : Option RequestContext) : ElmapiError :=
  mkError "ServerError"
    (if message.isUndefined then .str "Server error occurred. Please try again later." else message)
    (some 500) (.str "SERVER_ERROR") .undefined ri

/-- `new NetworkError(message, requestInfo)`: carries no status code. -/
def mkNetworkError (message : JsonVal) (ri : Option RequestContext) : ElmapiError :=
  mkError "NetworkError"
    (if message.isUndefined then .str "Network error occurred. Please check your connection." else message)
    none (.str "NETWORK_ERROR") .undefined ri

/-- `new TimeoutError(timeout, requestInfo)`: carries no status code. -/
def mkTimeoutError (timeout : Nat) (ri : Option RequestContext) : ElmapiError :=
  mkError "TimeoutError"
    (.str ("Request timed out after " ++ toString timeout ++ "ms."))
    none (.str "TIMEOUT_ERROR") .undefined ri

/-- The part of a superagent failure observable by the classifiers:
an optional HTTP response, plus `error.message`, `error.code` and the
`error.timeout` flag. -/
structure HttpResponse where
  status : Nat
  body : JsonVal
  text : JsonVal

/-- A failed transport exchange as seen in the `catch` block of the executor. -/
structure TransportFailure where
  response : Option HttpResponse
  message : Option String
  code : Option String
  timeout : Bool

/-- `error.response?.body` as a JavaScript value. -/
def TransportFailure.respBody (f : TransportFailure) : JsonVal :=
  match f.response with
  | some r => r.body
  | none => .undefined

/-- `error.response?.text` as a JavaScript value. -/
def TransportFailure.respText (f : TransportFailure) : JsonVal :=
  match f.response with
  | some r => r.text
  | none => .undefined

/-- The data `createApiError` recovers from the exchange before switching on
the status code: the message, the `details` property and the `code` property
of the (parsed) error body. -/
structure RecoveredData where
  message : JsonVal
  details : JsonVal
  code : JsonVal

/-- The first half of `createApiError`: compute `responseBody` and
`errorData`, then read `errorData.message` / `.error` / `.details` / `.code`.
Property access happens in the `Except` monad because `errorData` can be
JavaScript `null` (when the body text parses to JSON null), in which case the
access throws a TypeError.  `parse` is the external `JSON.parse`. -/
def recoverData (parse : String → Except String JsonVal)
    (error : TransportFailure) : Except String RecoveredData := do
  let responseBody := jsOr error.respBody error.respText
  let errorData : JsonVal :=
    if responseBody.truthy then
      match responseBody with
      | .str s =>
        match parse s with
        | .ok v => v
        | .error _ => .obj [("message", .str s)]
      | v => v
    else .obj []
  let mField ← jsGet errorData "message"
  let eField ← jsGet errorData "error"
  let message := jsOr (jsOr (jsOr mField eField) (jsOfStrOpt error.message))
      (.str "An unknown error occurred")
  let details ← jsGet errorData "details"
  let code ← jsGet errorData "code"
  pure { message := message, details := details, code := code }

/-- The `switch (statusCode)` at the end of `createApiError`, written as the
equivalent equality chain. -/
def classifyStatus (statusCode : Option Nat) (d : RecoveredData)
    (requestInfo : RequestContext) : ElmapiError :=
  if statusCode = some 401 then mkAuthenticationError d.message (some requestInfo)
  else if statusCode = some 403 then mkAuthorizationError d.message (some requestInfo)
  else if statusCode = some 404 then mkNotFoundError "Resource" (some requestInfo)
  else if statusCode = some 422 then mkValidationError d.message d.details (some requestInfo)
  else if statusCode = some 429 then mkRateLimitError d.message (some requestInfo)
  else if statusCode = some 500 ∨ statusCode = some 502 ∨ statusCode = some 503 ∨ statusCode = some 504 then
    mkServerError d.message (some requestInfo)
  else mkElmapiError d.message statusCode d.code d.details (some requestInfo)

/-- `createApiError(error, requestInfo)`: recover data from the failed
exchange, then classify by status code.  The result is in `Except` because
the recovery step can throw a TypeError (see `recoverData`). -/
def createApiError (parse : String → Except String JsonVal)
    (error : TransportFailure) (requestInfo : RequestContext) :
    Except String ElmapiError :=
  match recoverData parse error with
  | .error s => .error s
  | .ok d => .ok (classifyStatus (error.response.map HttpResponse.status) d requestInfo)

/-- `createNetworkError(error, requestInfo)`. -/
def createNetworkError (error : TransportFailure) (requestInfo : RequestContext) :
    ElmapiError :=
  if error.code = some "ECONNABORTED" ∨ error.timeout = true then
    mkTimeoutError (jsOrNat0 requestInfo.timeout 30000) (some requestInfo)
  else if error.code = some "ENOTFOUND" ∨ error.code = some "ECONNREFUSED" then
    mkNetworkError
      (.str "Unable to connect to the server. Please check your internet connection and the API URL.")
      (some requestInfo)
  else
    mkNetworkError (jsOr (jsOfStrOpt error.message) (.str "Network error occurred"))
      (some requestInfo)

/-- Models the external JSON decode facility (`JSON.parse`) on the atom
inputs used by the concrete witnesses in this file: the JSON texts "null",
"true" and "false" parse to the corresponding values (as `JSON.parse` does);
every other input used here is not valid JSON and is treated as a failure. -/
def jsonAtomParse (s : String) : Except String JsonVal :=
  if s = "null" then .ok .null
  else if s = "true" then .ok (.bool true)
  else if s = "false" then .ok (.bool false)
  else .error "SyntaxError: unexpected token"

/-- `config.basePath.replace(/\/+$/, '')`: remove the maximal run of
trailing slashes. -/
def stripTrailingSlashes (s : String) : String :=
  String.mk ((s.data.reverse.dropWhile (fun c => c == '/')).reverse)

/-- The `ApiConfig` object handed to the `ApiClient` constructor. -/
structure ApiConfig where
  basePath : String
  accessToken : Option String
  projectId : String
  timeout : Option Nat

/-- The configuration fields of an `ApiClient` instance. -/
structure ApiClient where
  basePath : String
  accessToken : String
  projectId : String
  timeout : Nat

/-- The `ApiClient` constructor. -/
def ApiClient.ofConfig (config : ApiConfig) : ApiClient :=
  { basePath := stripTrailingSlashes config.basePath,
    accessToken := jsOrStr config.accessToken "",
    projectId := config.projectId,
    timeout := jsOrNat config.timeout 30000 }

/-- The file argument of `uploadAsset` as the code observes it
(only `file.name` is read). -/
structure FileArg where
  name : Option String

/-- The superagent request assembled by the executor before it is sent. -/
structure BuiltRequest where
  method : String
  url : String
  headers : List (String × String)
  queryParams : List (String × JsonVal)
  body : Option JsonVal
  timeout : Option Nat
  attachedFile : Option FileArg
  formFields : List (String × JsonVal)

/-- The request-building part of `ApiClient.request(method, path, params,
data)`: the assembled superagent request, the `requestInfo` context, and the
client as left by the method (no field is assigned, so it is returned
unchanged). -/
def ApiClient.request (c : ApiClient) (method path : String)
    (params : List (String × JsonVal)) (data : Option JsonVal) :
    BuiltRequest × RequestContext × ApiClient :=
  let url := c.basePath ++ path
  let headers :=
    (if c.accessToken ≠ "" then [("Authorization", "Bearer " ++ c.accessToken)] else [])
      ++ [("project-id", c.projectId), ("Accept", "application/json")]
  ({ method := method, url := url, headers := headers,
     -- `if (params)`: params is an object, hence always truthy; `.query(params)`
     -- is always applied.
     queryParams := params,
     -- `if (data) request.send(data)`
     body := match data with
             | some d => if d.truthy then some d else none
             | none => none,
     timeout := some c.timeout,
     attachedFile := none, formFields := [] },
   { method := method, url := url, params := params,
     data := data.getD .undefined, timeout := c.timeout },
   c)

/-- The request-building part of `ApiClient.uploadAsset(file, metadata)`:
note that, unlike `request`, it sets no `Accept` header and never calls
`.timeout(...)` on the superagent request. -/
def ApiClient.uploadAsset (c : ApiClient) (file : FileArg)
    (metadata : Option JsonVal) : BuiltRequest × RequestContext × ApiClient :=
  let url := c.basePath ++ "/files"
  let headers :=
    (if c.accessToken ≠ "" then [("Authorization", "Bearer " ++ c.accessToken)] else [])
      ++ [("project-id", c.projectId)]
  ({ method := "POST", url := url, headers := headers,
     queryParams := [], body := none,
     timeout := none,
     attachedFile := some file,
     -- `if (metadata) request.field('metadata', JSON.stringify(metadata))`;
     -- the JSON-encoded field is recorded by its value.
     formFields := match metadata with
                   | some m => if m.truthy then [("metadata", m)] else []
                   | none => [] },
   { method := "POST", url := url, params := [],
     data := .obj [("file", .str (jsOrStr file.name "file")),
                   ("metadata", metadata.getD .undefined)],
     timeout := c.timeout },
   c)

/-- `ApiClient.deleteEntry(collectionSlug, uuid, force)`:
`const params = force ? { force } : {}` — with `force : Option Bool`,
the object `{ force }` is built exactly when `force` is truthy,
i.e. equal to `some true`. -/
def ApiClient.deleteEntry (c : ApiClient) (collectionSlug uuid : String)
    (force : Option Bool) : BuiltRequest × RequestContext × ApiClient :=
  let params := match force with
                | some true => [("force", JsonVal.bool true)]
                | _ => []
  c.request "DELETE" ("/" ++ collectionSlug ++ "/" ++ uuid) params none

/-- The full `ApiClient.request` exchange: build the request, hand it to the
transport (`respond`), and on failure classify.  The result distinguishes a
thrown `ElmapiError` (inner `Except.error`) from a thrown raw JavaScript
error such as a TypeError (outer `Except.error`). -/
def ApiClient.requestRun (c : ApiClient)
    (parse : String → Except String JsonVal)
    (respond : BuiltRequest → Except TransportFailure HttpResponse)
    (method path : String) (params : List (String × JsonVal))
    (data : Option JsonVal) : Except String (Except ElmapiError JsonVal) :=
  let built := c.request method path params data
  match respond built.1 with
  | .ok response => .ok (.ok response.body)
  | .error err =>
    match err.response with
    | some _ => (createApiError parse err built.2.1).map (fun e => .error e)
    | none => .ok (.error (createNetworkError err built.2.1))

/-- `ApiClient.getCollection(collectionSlug)`: run the underlying request on
`/collections/{slug}`; in the catch block, an error that is an instance of
`NotFoundError` (in this library, exactly the errors whose class name is
"NotFoundError") is replaced by a new `NotFoundError` with a
collection-specific resource label and the original error's `requestInfo`;
anything else is rethrown unchanged. -/
def ApiClient.getCollection (c : ApiClient)
    (parse : String → Except String JsonVal)
    (respond : BuiltRequest → Except TransportFailure HttpResponse)
    (collectionSlug : String) : Except String (Except ElmapiError JsonVal) :=
  match c.requestRun parse respond "GET" ("/collections/" ++ collectionSlug) [] none with
  | .ok (.error e) =>
    .ok (.error (if e.name = "NotFoundError" then
      mkNotFoundError ("Collection '" ++ collectionSlug ++ "'") e.requestInfo
    else e))
  | other => other

/-- `ApiClient.validateConfiguration()`: collect every violated constraint,
then throw a single `ValidationError` listing all of them. -/
def validateConfiguration (c : ApiClient) : Except ElmapiError Unit :=
  let errors :=
    (if c.basePath = "" then ["Base path is required"] else [])
      ++ (if c.projectId = "" then ["Project ID is required"] else [])
  if errors.length > 0 then
    .error (mkValidationError
      (.str ("Invalid client configuration: " ++ String.intercalate ", " errors))
      (.obj [("errors", .arr (errors.map JsonVal.str))]) none)
  else .ok ()

/-- `createClient(baseUrl, apiToken, projectId, config)`: construct the
client, validate its configuration, and rethrow a `ValidationError` as-is
(any other thrown value would be wrapped, a dead branch here since
`validateConfiguration` only throws `ValidationError`). -/
def createClient (baseUrl apiToken projectId : String)
    (configTimeout : Option Nat) : Except ElmapiError ApiClient :=
  let client := ApiClient.ofConfig
    { basePath := baseUrl, accessToken := some apiToken,
      projectId := projectId, timeout := some (jsOrNat configTimeout 30000) }
  match validateConfiguration client with
  | .ok _ => .ok client
  | .error e =>
    if e.name = "ValidationError" then .error e
    else .error (mkValidationError (.str "Failed to validate client configuration") .undefined none)

/-- Spec-side table (from the specification text, for comparison with the
source classifier): the error-class name the spec assigns to each status
code. -/
def specStatusVariant (s : Nat) : String :=
  if s = 401 then "AuthenticationError"
  else if s = 403 then "AuthorizationError"
  else if s = 404 then "NotFoundError"
  else if s = 422 then "ValidationError"
  else if s = 429 then "RateLimitError"
  else if s = 500 ∨ s = 502 ∨ s = 503 ∨ s = 504 then "ServerError"
  else "ElmapiError"

/-- The status codes with a dedicated case in the classifier's switch. -/
def handledStatuses : List Nat := [401, 403, 404, 422, 429, 500, 502, 503, 504]

/-- Spec-side notion (from the specification text) of a configured access
token: a non-empty token string was supplied in the configuration. -/
def tokenConfigured (cfg : ApiConfig) : Prop :=
  match cfg.accessToken with
  | some t => t ≠ ""
  | none => False

/-- The timeout of a constructed client is never 0: `config.timeout || 30000`
replaces any falsy configured value by the 30000 default. -/
theorem ofConfig_timeout_ne_zero (cfg : ApiConfig) :
    (ApiClient.ofConfig cfg).timeout ≠ 0 := by
  unfold ApiClient.ofConfig jsOrNat
  cases cfg.timeout with
  | none => simp
  | some n =>
    by_cases h : n = 0 <;> simp [h]

/-- The access token stored on a constructed client is non-empty exactly when
a non-empty token was configured. -/
theorem ofConfig_accessToken_spec (cfg : ApiConfig) :
    ((ApiClient.ofConfig cfg).accessToken ≠ "" ↔ tokenConfigured cfg) ∧
    (∀ t, cfg.accessToken = some t → t ≠ "" →
      (ApiClient.ofConfig cfg).accessToken = t) := by
  unfold ApiClient.ofConfig jsOrStr tokenConfigured
  cases h : cfg.accessToken with
  | none => simp
  | some t =>
    by_cases ht : t = "" <;> simp [ht]

/-- C7: createClient with an empty base path and an empty project identifier
fails synchronously with a ValidationError whose details list both
violations, the missing base path and the missing project identifier. -/
theorem createClient_empty_config_lists_both_violations
    (apiToken : String) (configTimeout : Option Nat) :
    createClient "" apiToken "" configTimeout =
      .error (mkValidationError
        (.str "Invalid client configuration: Base path is required, Project ID is required")
        (.obj [("errors", .arr [.str "Base path is required", .str "Project ID is required"])])
        none) ∧
    (mkValidationError
        (.str "Invalid client configuration: Base path is required, Project ID is required")
        (.obj [("errors", .arr [.str "Base path is required", .str "Project ID is required"])])
        none).name = "ValidationError" ∧
    (mkValidationError
        (.str "Invalid client configuration: Base path is required, Project ID is required")
        (.obj [("errors", .arr [.str "Base path is required", .str "Project ID is required"])])
        none).statusCode = some 422 := by
  refine ⟨?_, rfl, rfl⟩
  rfl

/-- C8: deleteEntry with the force argument omitted sends no force query
parameter; deleteEntry with force = true sends the query parameter
force = true. -/
theorem deleteEntry_force_query_parameter (c : ApiClient) (slug uuid : String) :
    (¬ ∃ v, ("force", v) ∈ ((c.deleteEntry slug uuid none).1).queryParams) ∧
    ((c.deleteEntry slug uuid (some true)).1).queryParams = [("force", JsonVal.bool true)] ∧
    ("force", JsonVal.bool true) ∈ ((c.deleteEntry slug uuid (some true)).1).queryParams := by
  refine ⟨?_, rfl, ?_⟩
  · rintro ⟨v, hv⟩
    simp [ApiClient.deleteEntry, ApiClient.request] at hv
  · simp [ApiClient.deleteEntry, ApiClient.request]

/-- C2: every request constructed by the executor or by the multipart upload
path carries a project-id header equal to the configured project identifier,
and carries an Authorization header (with value Bearer token) if and only if
a non-empty access token was configured. -/
theorem request_header_invariants (cfg : ApiConfig) (method path : String)
    (params : List (String × JsonVal)) (data : Option JsonVal)
    (file : FileArg) (metadata : Option JsonVal) :
    ("project-id", cfg.projectId) ∈
        ((ApiClient.ofConfig cfg).request method path params data).1.headers ∧
    ("project-id", cfg.projectId) ∈
        ((ApiClient.ofConfig cfg).uploadAsset file metadata).1.headers ∧
    ((∃ v, ("Authorization", v) ∈
        ((ApiClient.ofConfig cfg).request method path params data).1.headers) ↔
      tokenConfigured cfg) ∧
    ((∃ v, ("Authorization", v) ∈
        ((ApiClient.ofConfig cfg).uploadAsset file metadata).1.headers) ↔
      tokenConfigured cfg) ∧
    (∀ t, cfg.accessToken = some t → t ≠ "" →
      ("Authorization", "Bearer " ++ t) ∈
          ((ApiClient.ofConfig cfg).request method path params data).1.headers ∧
      ("Authorization", "Bearer " ++ t) ∈
          ((ApiClient.ofConfig cfg).uploadAsset file metadata).1.headers) := by
  have hspec := ofConfig_accessToken_spec cfg
  refine ⟨?_, ?_, ⟨?_, ?_⟩, ⟨?_, ?_⟩, ?_⟩
  · simp [ApiClient.request, ApiClient.ofConfig]
  · simp [ApiClient.uploadAsset, ApiClient.ofConfig]
  · rintro ⟨v, hv⟩
    by_cases h : (ApiClient.ofConfig cfg).accessToken = ""
    · simp [ApiClient.request, h] at hv
    · exact hspec.1.mp h
  · intro htc
    have h := hspec.1.mpr htc
    exact ⟨"Bearer " ++ (ApiClient.ofConfig cfg).accessToken,
      by simp [ApiClient.request, h]⟩
  · rintro ⟨v, hv⟩
    by_cases h : (ApiClient.ofConfig cfg).accessToken = ""
    · simp [ApiClient.uploadAsset, h] at hv
    · exact hspec.1.mp h
  · intro htc
    have h := hspec.1.mpr htc
    exact ⟨"Bearer " ++ (ApiClient.ofConfig cfg).accessToken,
      by simp [ApiClient.uploadAsset, h]⟩
  · intro t ht hne
    have heq := hspec.2 t ht hne
    have h : (ApiClient.ofConfig cfg).accessToken ≠ "" := by rw [heq]; exact hne
    constructor
    · simp [ApiClient.request, h, heq, hne]
    · simp [ApiClient.uploadAsset, h, heq, hne]

/-- C2 witness: for a concretely configured client, the executor's request
carries the project-id header and the Bearer Authorization header. -/
theorem request_header_invariants_witness :
    ("project-id", "proj-1") ∈
        ((ApiClient.ofConfig ⟨"https://api.example.com", some "tok", "proj-1", some 5000⟩).request
          "GET" "/collections" [] none).1.headers ∧
    ("Authorization", "Bearer " ++ "tok") ∈
        ((ApiClient.ofConfig ⟨"https://api.example.com", some "tok", "proj-1", some 5000⟩).request
          "GET" "/collections" [] none).1.headers := by
  have h := request_header_invariants ⟨"https://api.example.com", some "tok", "proj-1", some 5000⟩
    "GET" "/collections" [] none ⟨some "pic.png"⟩ none
  exact ⟨h.1, (h.2.2.2.2 "tok" rfl (by decide)).1⟩

/-- C4 counterexample: for a concrete client configured with timeout 7000,
the multipart upload request sets no Accept header and does not apply the
configured timeout, contradicting the claim that uploadAsset follows the
executor's header rules (which always set Accept) and applies the timeout. -/
theorem uploadAsset_no_accept_no_timeout_counterexample :
    ("Accept", "application/json") ∉
        ((ApiClient.ofConfig ⟨"https://api.example.com", some "tok", "proj-1", some 7000⟩).uploadAsset
          ⟨some "pic.png"⟩ none).1.headers ∧
    ((ApiClient.ofConfig ⟨"https://api.example.com", some "tok", "proj-1", some 7000⟩).uploadAsset
          ⟨some "pic.png"⟩ none).1.timeout ≠
      some (ApiClient.ofConfig ⟨"https://api.example.com", some "tok", "proj-1", some 7000⟩).timeout := by
  constructor
  · decide
  · decide

/-- C4 (amended): uploadAsset applies the executor's Authorization and
project-id header rules, but sets no Accept header at all and leaves the
superagent request without a timeout. -/
theorem uploadAsset_header_and_timeout_rules (cfg : ApiConfig)
    (file : FileArg) (metadata : Option JsonVal) :
    ("project-id", cfg.projectId) ∈
        ((ApiClient.ofConfig cfg).uploadAsset file metadata).1.headers ∧
    ((∃ v, ("Authorization", v) ∈
        ((ApiClient.ofConfig cfg).uploadAsset file metadata).1.headers) ↔
      tokenConfigured cfg) ∧
    ((((ApiClient.ofConfig cfg).uploadAsset file metadata).1.headers.map
        Prod.fst).contains "Accept" = false) ∧
    ((ApiClient.ofConfig cfg).uploadAsset file metadata).1.timeout = none := by
  have hspec := ofConfig_accessToken_spec cfg
  refine ⟨?_, ⟨?_, ?_⟩, ?_, rfl⟩
  · simp [ApiClient.uploadAsset, ApiClient.ofConfig]
  · rintro ⟨v, hv⟩
    by_cases h : (ApiClient.ofConfig cfg).accessToken = ""
    · simp [ApiClient.uploadAsset, h] at hv
    · exact hspec.1.mp h
  · intro htc
    have h := hspec.1.mpr htc
    exact ⟨"Bearer " ++ (ApiClient.ofConfig cfg).accessToken,
      by simp [ApiClient.uploadAsset, h]⟩
  · by_cases h : (ApiClient.ofConfig cfg).accessToken = "" <;>
      simp [ApiClient.uploadAsset, h]

/-- C3: when the underlying request of getCollection fails with a
NotFoundError, getCollection re-raises a new NotFoundError whose resource
label is Collection 'slug' (message "Collection 'slug' not found.") and whose
requestInfo is the one carried by the original error; every other outcome —
a thrown error that is not a NotFoundError, a thrown raw JavaScript error, or
a success — propagates to the caller unmodified. -/
theorem getCollection_notfound_remap (c : ApiClient)
    (parse : String → Except String JsonVal)
    (respond : BuiltRequest → Except TransportFailure HttpResponse)
    (slug : String) :
    (∀ e, c.requestRun parse respond "GET" ("/collections/" ++ slug) [] none = .ok (.error e) →
      (e.name = "NotFoundError" →
        c.getCollection parse respond slug =
          .ok (.error (mkNotFoundError ("Collection '" ++ slug ++ "'") e.requestInfo)) ∧
        (mkNotFoundError ("Collection '" ++ slug ++ "'") e.requestInfo).message =
          .str ("Collection '" ++ slug ++ "' not found.") ∧
        (mkNotFoundError ("Collection '" ++ slug ++ "'") e.requestInfo).requestInfo =
          e.requestInfo) ∧
      (e.name ≠ "NotFoundError" → c.getCollection parse respond slug = .ok (.error e))) ∧
    (∀ s, c.requestRun parse respond "GET" ("/collections/" ++ slug) [] none = .error s →
      c.getCollection parse respond slug = .error s) ∧
    (∀ v, c.requestRun parse respond "GET" ("/collections/" ++ slug) [] none = .ok (.ok v) →
      c.getCollection parse respond slug = .ok (.ok v)) := by
  refine ⟨?_, ?_, ?_⟩
  · intro e h
    constructor
    · intro hn
      refine ⟨?_, ?_, rfl⟩
      · unfold ApiClient.getCollection
        rw [h]
        simp [hn]
      · show JsonVal.str (("Collection '" ++ slug ++ "'") ++ " not found.") = _
        rw [String.append_assoc]
        rfl
    · intro hn
      unfold ApiClient.getCollection
      rw [h]
      simp [hn]
  · intro s h
    unfold ApiClient.getCollection
    rw [h]
  · intro v h
    unfold ApiClient.getCollection
    rw [h]

/-- C3 witness: against a backend answering 404, getCollection "missing"
yields a NotFoundError labelled Collection 'missing' carrying the original
request context. -/
theorem getCollection_notfound_remap_witness :
    (ApiClient.ofConfig ⟨"http://h", some "tok", "p1", some 5000⟩).getCollection jsonAtomParse
        (fun _ => .error ⟨some ⟨404, .undefined, .undefined⟩, some "Not Found", none, false⟩) "missing" =
      .ok (.error (mkNotFoundError ("Collection '" ++ "missing" ++ "'")
        (some ⟨"GET", "http://h/collections/missing", [], .undefined, 5000⟩))) := by
  have h := (getCollection_notfound_remap
      (ApiClient.ofConfig ⟨"http://h", some "tok", "p1", some 5000⟩) jsonAtomParse
      (fun _ => .error ⟨some ⟨404, .undefined, .undefined⟩, some "Not Found", none, false⟩) "missing").1
      (mkNotFoundError "Resource"
        (some ⟨"GET", "http://h/collections/missing", [], .undefined, 5000⟩))
  exact ((h rfl).1 rfl).1

/-- C5: for a transport-level failure with a request context issued by a
constructed client: a failure flagged as timeout (code ECONNABORTED or the
timeout flag) yields a TimeoutError carrying the client's configured timeout
(the `|| 30000` fallback never fires because a constructed client's timeout
is non-zero); a host-resolution or connection-refusal failure yields a
NetworkError with the connectivity message; any other failure yields a
generic NetworkError carrying the transport-supplied message. -/
theorem createNetworkError_classification (cfg : ApiConfig)
    (ri : RequestContext) (f : TransportFailure)
    (hri : ri.timeout = (ApiClient.ofConfig cfg).timeout) :
    ((f.code = some "ECONNABORTED" ∨ f.timeout = true) →
      createNetworkError f ri =
        mkTimeoutError (ApiClient.ofConfig cfg).timeout (some ri)) ∧
    (f.code ≠ some "ECONNABORTED" → f.timeout = false →
      (f.code = some "ENOTFOUND" ∨ f.code = some "ECONNREFUSED") →
      createNetworkError f ri =
        mkNetworkError
          (.str "Unable to connect to the server. Please check your internet connection and the API URL.")
          (some ri)) ∧
    (f.code ≠ some "ECONNABORTED" → f.code ≠ some "ENOTFOUND" →
      f.code ≠ some "ECONNREFUSED" → f.timeout = false →
      ∀ msg, f.message = some msg → msg ≠ "" →
      createNetworkError f ri = mkNetworkError (.str msg) (some ri)) := by
  refine ⟨?_, ?_, ?_⟩
  · intro h
    unfold createNetworkError
    rw [if_pos h, hri]
    unfold jsOrNat0
    rw [if_neg (ofConfig_timeout_ne_zero cfg)]
  · intro h1 h2 h3
    unfold createNetworkError
    have hno : ¬(f.code = some "ECONNABORTED" ∨ f.timeout = true) := by
      simp [h1, h2]
    rw [if_neg hno, if_pos h3]
  · intro h1 h2 h3 h4 msg hmsg hne
    unfold createNetworkError
    have hno : ¬(f.code = some "ECONNABORTED" ∨ f.timeout = true) := by
      simp [h1, h4]
    have hno2 : ¬(f.code = some "ENOTFOUND" ∨ f.code = some "ECONNREFUSED") := by
      simp [h2, h3]
    rw [if_neg hno, if_neg hno2, hmsg]
    unfold jsOr jsOfStrOpt
    simp [JsonVal.truthy, hne]

/-- C5 witness: concrete timeout, connection-refusal and generic transport
failures classified against a client configured with timeout 5000. -/
theorem createNetworkError_classification_witness :
    createNetworkError ⟨none, some "timeout exceeded", some "ECONNABORTED", false⟩
        ⟨"GET", "http://h/x", [], .undefined, 5000⟩ =
      mkTimeoutError 5000 (some ⟨"GET", "http://h/x", [], .undefined, 5000⟩) ∧
    createNetworkError ⟨none, some "connection refused", some "ECONNREFUSED", false⟩
        ⟨"GET", "http://h/x", [], .undefined, 5000⟩ =
      mkNetworkError
        (.str "Unable to connect to the server. Please check your internet connection and the API URL.")
        (some ⟨"GET", "http://h/x", [], .undefined, 5000⟩) ∧
    createNetworkError ⟨none, some "socket hang up", none, false⟩
        ⟨"GET", "http://h/x", [], .undefined, 5000⟩ =
      mkNetworkError (.str "socket hang up")
        (some ⟨"GET", "http://h/x", [], .undefined, 5000⟩) := by
  refine ⟨?_, ?_, ?_⟩
  · exact (createNetworkError_classification ⟨"http://h", some "tok", "p1", some 5000⟩
      ⟨"GET", "http://h/x", [], .undefined, 5000⟩
      ⟨none, some "timeout exceeded", some "ECONNABORTED", false⟩ rfl).1 (Or.inl rfl)
  · exact (createNetworkError_classification ⟨"http://h", some "tok", "p1", some 5000⟩
      ⟨"GET", "http://h/x", [], .undefined, 5000⟩
      ⟨none, some "connection refused", some "ECONNREFUSED", false⟩ rfl).2.1
      (by decide) rfl (Or.inr rfl)
  · exact (createNetworkError_classification ⟨"http://h", some "tok", "p1", some 5000⟩
      ⟨"GET", "http://h/x", [], .undefined, 5000⟩
      ⟨none, some "socket hang up", none, false⟩ rfl).2.2
      (by decide) (by decide) (by decide) rfl "socket hang up" rfl (by decide)

/-- The class name chosen by the classifier's switch agrees with the
spec-side status table, for every status code and recovered data. -/
theorem classifyStatus_name (s : Nat) (d : RecoveredData) (ri : RequestContext) :
    (classifyStatus (some s) d ri).name = specStatusVariant s := by
  unfold classifyStatus specStatusVariant
  simp only [Option.some.injEq]
  split_ifs <;> rfl

/-- C1 counterexample: a failed exchange carrying a 401 response whose body
text is the JSON text "null" makes classification throw a TypeError instead
of producing an AuthenticationError, refuting the claim as universally
stated. -/
theorem createApiError_401_null_counterexample :
    createApiError jsonAtomParse
        ⟨some ⟨401, .undefined, .str "null"⟩, some "Unauthorized", none, false⟩
        ⟨"GET", "http://h/x", [], .undefined, 5000⟩ =
      .error jsTypeError := by
  rfl

/-- C1 (amended): for every failed HTTP exchange that carries a response and
on which classification returns an error object (rather than throwing on a
body that parses to JSON null), the error's class is the one the spec's
table assigns to the status code alone; the 404 error is the generic
NotFoundError labelled "Resource", the 422 error is a ValidationError
carrying the recovered details, and any unhandled status yields the generic
fallback carrying the recovered status, code and details. -/
theorem createApiError_status_mapping (parse : String → Except String JsonVal)
    (f : TransportFailure) (ri : RequestContext) (r : HttpResponse)
    (e : ElmapiError) (hr : f.response = some r)
    (h : createApiError parse f ri = .ok e) :
    e.name = specStatusVariant r.status ∧
    ∃ d, recoverData parse f = .ok d ∧
      (r.status = 404 → e = mkNotFoundError "Resource" (some ri)) ∧
      (r.status = 422 → e = mkValidationError d.message d.details (some ri)) ∧
      (r.status ∉ handledStatuses →
        e = mkElmapiError d.message (some r.status) d.code d.details (some ri)) := by
  unfold createApiError at h
  cases hd : recoverData parse f with
  | error s => rw [hd] at h; exact absurd h (by simp)
  | ok d =>
    rw [hd, hr] at h
    injection h with h'
    have he : e = classifyStatus (some r.status) d ri := h'.symm
    refine ⟨?_, d, rfl, ?_, ?_, ?_⟩
    · rw [he]; exact classifyStatus_name r.status d ri
    · intro h404; rw [he, h404]; rfl
    · intro h422; rw [he, h422]; rfl
    · intro hnot
      simp only [handledStatuses, List.mem_cons, List.not_mem_nil, or_false,
        not_or] at hnot
      obtain ⟨h1, h2, h3, h4, h5, h6, h7, h8, h9⟩ := hnot
      rw [he]
      unfold classifyStatus
      simp only [Option.some.injEq]
      rw [if_neg h1, if_neg h2, if_neg h3, if_neg h4, if_neg h5,
        if_neg (by simp [h6, h7, h8, h9])]

/-- C1 witness: a 418 response with a structured body is classified as the
generic fallback variant the spec table assigns to 418. -/
theorem createApiError_status_mapping_witness :
    (mkElmapiError (.str "teapot") (some 418) (.str "TEAPOT") .undefined
        (some ⟨"GET", "http://h/x", [], .undefined, 5000⟩)).name =
      specStatusVariant 418 := by
  exact (createApiError_status_mapping jsonAtomParse
    ⟨some ⟨418, .obj [("message", .str "teapot"), ("code", .str "TEAPOT")], .undefined⟩,
      some "HTTP error", none, false⟩
    ⟨"GET", "http://h/x", [], .undefined, 5000⟩
    ⟨418, .obj [("message", .str "teapot"), ("code", .str "TEAPOT")], .undefined⟩
    (mkElmapiError (.str "teapot") (some 418) (.str "TEAPOT") .undefined
      (some ⟨"GET", "http://h/x", [], .undefined, 5000⟩))
    rfl rfl).1

/-- C6: response-level classification is not total: when the response body
text is the JSON text "null" (which JSON.parse converts to null), the code
reads `.message` off null and throws a TypeError instead of returning a
TypedError — contradicting the claim that construction never fails. -/
theorem createApiError_null_body_throws (parse : String → Except String JsonVal)
    (ri : RequestContext) (hparse : parse "null" = .ok .null) :
    createApiError parse
        ⟨some ⟨400, .undefined, .str "null"⟩, some "Bad Request", none, false⟩ ri =
      .error jsTypeError := by
  simp [createApiError, recoverData, TransportFailure.respBody,
    TransportFailure.respText, jsOr, JsonVal.truthy, jsGet, hparse]
  rfl

/-- C6 witness: the throwing input evaluated with the concrete JSON-atom
parse function. -/
theorem createApiError_null_body_throws_witness :
    createApiError jsonAtomParse
        ⟨some ⟨400, .undefined, .str "null"⟩, some "Bad Request", none, false⟩
        ⟨"POST", "http://h/y", [], .undefined, 30000⟩ =
      .error jsTypeError := by
  exact createApiError_null_body_throws jsonAtomParse
    ⟨"POST", "http://h/y", [], .undefined, 30000⟩ rfl

/-- C10: whenever classification of a 502, 503 or 504 response returns an
error, that error is a ServerError whose statusCode is 500 — not the actual
response status, which is recorded nowhere on the error (its code is the
constant SERVER_ERROR, its details are unset, and its requestInfo has no
status field by construction). -/
theorem serverError_statusCode_500 (parse : String → Except String JsonVal)
    (f : TransportFailure) (ri : RequestContext) (r : HttpResponse)
    (e : ElmapiError) (hr : f.response = some r)
    (hs : r.status = 502 ∨ r.status = 503 ∨ r.status = 504)
    (h : createApiError parse f ri = .ok e) :
    e.name = "ServerError" ∧ e.statusCode = some 500 ∧
    e.statusCode ≠ some r.status ∧ e.code = some (.str "SERVER_ERROR") ∧
    e.details = none ∧
    ∃ d, recoverData parse f = .ok d ∧ e = mkServerError d.message (some ri) := by
  unfold createApiError at h
  cases hd : recoverData parse f with
  | error s => rw [hd] at h; exact absurd h (by simp)
  | ok d =>
    rw [hd, hr] at h
    injection h with h'
    have he : e = classifyStatus (some r.status) d ri := h'.symm
    rcases hs with h5 | h5 | h5
    · rw [h5] at he
      rw [he, h5]
      exact ⟨rfl, rfl, (by decide : (some 500 : Option Nat) ≠ some 502), rfl, rfl, d, rfl, rfl⟩
    · rw [h5] at he
      rw [he, h5]
      exact ⟨rfl, rfl, (by decide : (some 500 : Option Nat) ≠ some 503), rfl, rfl, d, rfl, rfl⟩
    · rw [h5] at he
      rw [he, h5]
      exact ⟨rfl, rfl, (by decide : (some 500 : Option Nat) ≠ some 504), rfl, rfl, d, rfl, rfl⟩

/-- C10 witness: a concrete 502 exchange produces a ServerError carrying
status code 500. -/
theorem serverError_statusCode_500_witness :
    (mkServerError (.str "Bad Gateway")
        (some ⟨"GET", "http://h/x", [], .undefined, 5000⟩)).statusCode = some 500 ∧
    (mkServerError (.str "Bad Gateway")
        (some ⟨"GET", "http://h/x", [], .undefined, 5000⟩)).statusCode ≠ some 502 := by
  have h := serverError_statusCode_500 jsonAtomParse
    ⟨some ⟨502, .obj [("message", .str "Bad Gateway")], .undefined⟩, some "HTTP error", none, false⟩
    ⟨"GET", "http://h/x", [], .undefined, 5000⟩
    ⟨502, .obj [("message", .str "Bad Gateway")], .undefined⟩
    (mkServerError (.str "Bad Gateway")
      (some ⟨"GET", "http://h/x", [], .undefined, 5000⟩))
    rfl (Or.inl rfl) rfl
  exact ⟨h.2.1, h.2.2.1⟩

/-- The head of `dropWhile p l`, when present, does not satisfy `p`. -/
theorem head_dropWhile_not {α : Type} (p : α → Bool) :
    ∀ (l : List α) (a : α), (l.dropWhile p).head? = some a → p a = false := by
  intro l
  induction l with
  | nil => intro a h; simp [List.dropWhile] at h
  | cons x xs ih =>
    intro a h
    by_cases hx : p x = true
    · rw [List.dropWhile_cons_of_pos hx] at h
      exact ih a h
    · rw [List.dropWhile_cons_of_neg hx] at h
      simp only [List.head?_cons, Option.some.injEq] at h
      rw [← h]
      exact eq_false_of_ne_true hx

/-- `stripTrailingSlashes` removes exactly the maximal run of trailing
slashes: the result never ends in a slash, and the input is the result
followed by some run of slashes. -/
theorem stripTrailingSlashes_spec (s : String) :
    (stripTrailingSlashes s).data.getLast? ≠ some '/' ∧
    ∃ n, s.data = (stripTrailingSlashes s).data ++ List.replicate n '/' := by
  have h1 : (stripTrailingSlashes s).data =
      (s.data.reverse.dropWhile (fun c => c == '/')).reverse := rfl
  constructor
  · intro hcon
    rw [h1, List.getLast?_reverse] at hcon
    have := head_dropWhile_not (fun c => c == '/') s.data.reverse '/' hcon
    simp at this
  · refine ⟨(s.data.reverse.takeWhile (fun c => c == '/')).length, ?_⟩
    have h2 : s.data.reverse.takeWhile (fun c => c == '/') =
        List.replicate (s.data.reverse.takeWhile (fun c => c == '/')).length '/' := by
      apply List.eq_replicate_of_mem
      intro b hb
      have := List.mem_takeWhile_imp hb
      simpa using this
    calc s.data = s.data.reverse.reverse := (List.reverse_reverse _).symm
      _ = (s.data.reverse.takeWhile (fun c => c == '/') ++
            s.data.reverse.dropWhile (fun c => c == '/')).reverse := by
          rw [List.takeWhile_append_dropWhile]
      _ = (s.data.reverse.dropWhile (fun c => c == '/')).reverse ++
            (s.data.reverse.takeWhile (fun c => c == '/')).reverse := by
          rw [List.reverse_append]
      _ = (stripTrailingSlashes s).data ++
            List.replicate (s.data.reverse.takeWhile (fun c => c == '/')).length '/' := by
          rw [← h1]
          congr 1
          rw [h2, List.reverse_replicate]
          simp

/-- C9 counterexample: a client constructed with the explicitly configured
timeout 0 gets timeout 30000, not the configured value, because
`config.timeout || 30000` treats 0 as absent. -/
theorem timeout_zero_counterexample :
    (ApiClient.ofConfig ⟨"b", none, "p", some 0⟩).timeout = 30000 ∧
    (ApiClient.ofConfig ⟨"b", none, "p", some 0⟩).timeout ≠ 0 := by
  constructor
  · decide
  · decide

/-- C9 (amended): after construction the client's base path is the configured
base path with the maximal run of trailing slashes stripped, its timeout is
the configured timeout when a non-zero one is given and 30000 ms otherwise
(a configured 0 is treated as absent); and the request-building operations
leave the client unchanged. -/
theorem config_after_construction (cfg : ApiConfig) (method path : String)
    (params : List (String × JsonVal)) (data : Option JsonVal)
    (file : FileArg) (metadata : Option JsonVal) :
    ((ApiClient.ofConfig cfg).basePath.data.getLast? ≠ some '/') ∧
    (∃ n, cfg.basePath.data =
      (ApiClient.ofConfig cfg).basePath.data ++ List.replicate n '/') ∧
    (∀ t, cfg.timeout = some t → t ≠ 0 → (ApiClient.ofConfig cfg).timeout = t) ∧
    (cfg.timeout = none → (ApiClient.ofConfig cfg).timeout = 30000) ∧
    (cfg.timeout = some 0 → (ApiClient.ofConfig cfg).timeout = 30000) ∧
    (((ApiClient.ofConfig cfg).request method path params data).2.2 =
      ApiClient.ofConfig cfg) ∧
    (((ApiClient.ofConfig cfg).uploadAsset file metadata).2.2 =
      ApiClient.ofConfig cfg) := by
  refine ⟨(stripTrailingSlashes_spec cfg.basePath).1,
    (stripTrailingSlashes_spec cfg.basePath).2, ?_, ?_, ?_, rfl, rfl⟩
  · intro t ht hne
    unfold ApiClient.ofConfig jsOrNat
    rw [ht]
    simp [hne]
  · intro ht
    unfold ApiClient.ofConfig jsOrNat
    rw [ht]
  · intro ht
    unfold ApiClient.ofConfig jsOrNat
    rw [ht]
    simp

/-- C9 witness: a client configured with base path "http://h///" and timeout
5000 ends with timeout 5000 and a base path not ending in a slash that the
configured base path extends by a run of slashes. -/
theorem config_after_construction_witness :
    (ApiClient.ofConfig ⟨"http://h///", some "tok", "p1", some 5000⟩).timeout = 5000 ∧
    (ApiClient.ofConfig ⟨"http://h///", some "tok", "p1", some 5000⟩).basePath.data.getLast? ≠ some '/' ∧
    ∃ n, ("http://h///" : String).data =
      (ApiClient.ofConfig ⟨"http://h///", some "tok", "p1", some 5000⟩).basePath.data ++
        List.replicate n '/' := by
  have h := config_after_construction ⟨"http://h///", some "tok", "p1", some 5000⟩
    "GET" "/x" [] none ⟨some "f"⟩ none
  exact ⟨h.2.2.1 5000 rfl (by decide), h.1, h.2.1⟩

/-- C4 witness: for a concrete client, the upload request carries the
project-id header and no timeout. -/
theorem uploadAsset_header_and_timeout_rules_witness :
    ("project-id", "p1") ∈
        ((ApiClient.ofConfig ⟨"http://h", some "tok", "p1", some 7000⟩).uploadAsset
          ⟨some "pic.png"⟩ none).1.headers ∧
    ((ApiClient.ofConfig ⟨"http://h", some "tok", "p1", some 7000⟩).uploadAsset
          ⟨some "pic.png"⟩ none).1.timeout = none := by
  have h := uploadAsset_header_and_timeout_rules
    ⟨"http://h", some "tok", "p1", some 7000⟩ ⟨some "pic.png"⟩ none
  exact ⟨h.1, h.2.2.2⟩

/-- C7 witness: the doubly-invalid construction evaluated at a concrete
token and default timeout. -/
theorem createClient_empty_config_witness :
    createClient "" "tok" "" none =
      .error (mkValidationError
        (.str "Invalid client configuration: Base path is required, Project ID is required")
        (.obj [("errors", .arr [.str "Base path is required", .str "Project ID is required"])])
        none) := by
  exact (createClient_empty_config_lists_both_violations "tok" none).1

/-- C8 witness: a concrete deleteEntry call with force = true carries the
force=true query parameter, and without force carries none. -/
theorem deleteEntry_force_query_parameter_witness :
    ("force", JsonVal.bool true) ∈
      (((ApiClient.ofConfig ⟨"http://h", some "tok", "p1", some 5000⟩).deleteEntry
        "posts" "u1" (some true)).1).queryParams ∧
    ¬ ∃ v, ("force", v) ∈
      (((ApiClient.ofConfig ⟨"http://h", some "tok", "p1", some 5000⟩).deleteEntry
        "posts" "u1" none).1).queryParams := by
  have h := deleteEntry_force_query_parameter
    (ApiClient.ofConfig ⟨"http://h", some "tok", "p1", some 5000⟩) "posts" "u1"
  exact ⟨h.2.2, h.1⟩
